import Mathlib

/-!
Verification of the scientific-judgment deliberation core.

Shallow embedding of:
- `publishability.py` (`evaluate_publishability`)
- `orchestration/state_machine.py` (phases, roles, transitions, participants)
- `orchestration/debate_protocol.py` (phase node functions, progress callbacks)
- `persistence/reviews_repo.py` (verdict-version chain)
- `web/app.py` (review job lifecycle)

Python machine-level details that the claims do not touch (timestamps,
floating-point sampling temperature, prompt text sent to models) are omitted;
fallible Python code is embedded with `Except`, the external Agent-Runner
response is a parameter following its documented contract
(content, parsed-JSON-or-null, model identity).
-/

/-- Python whitespace characters recognised by `str.strip()` (ASCII subset). -/
def isPyWs (c : Char) : Bool :=
  c = ' ' || c = '\t' || c = '\n' || c = '\r' || c = '\x0b' || c = '\x0c'

/-- Truthiness of `str(x).strip()`: true iff the string has a non-whitespace char. -/
def pyStripTruthy (s : String) : Bool :=
  s.data.any (fun c => !(isPyWs c))

/-- Python `s.rstrip()`: drop trailing whitespace. -/
def pyRstrip (s : String) : String :=
  ⟨(s.data.reverse.dropWhile isPyWs).reverse⟩

/-- Python `s.strip()`: drop leading and trailing whitespace. -/
def pyStrip (s : String) : String :=
  ⟨((s.data.dropWhile isPyWs).reverse.dropWhile isPyWs).reverse⟩

/-- Python `xs or d` for a list value: `d` when the list is empty (falsy). -/
def pyOrList {α : Type} (xs d : List α) : List α :=
  if xs.isEmpty then d else xs

/-- Python `opt or d` for an optional string: `d` when missing or empty. -/
def pyOrStr (o : Option String) (d : String) : String :=
  match o with
  | none => d
  | some s => if s.isEmpty then d else s

/-- List-of-chars prefix test (used to state prefix preservation of texts). -/
def charsLeads : List Char → List Char → Bool
  | [], _ => true
  | _ :: _, [] => false
  | a :: as, b :: bs => a == b && charsLeads as bs

/-- String `old` is an initial segment of string `new`. -/
def textLeads (old new : String) : Bool :=
  charsLeads old.data new.data

-- ===========================================================================
-- state_machine.py
-- ===========================================================================

/-- The 10 phases of `DebatePhase` (state_machine.py). -/
inductive DebatePhase where
  | initialization
  | claim_enumeration
  | methodological_review
  | evidence_review
  | coi_review
  | progress_evaluation
  | deliberation
  | verdict_assignment
  | synthesis
  | complete
deriving Repr, DecidableEq

/-- The 6 agent roles of `AgentRole` (state_machine.py). -/
inductive AgentRole where
  | moderator
  | methodologist
  | evidence_auditor
  | paradigm_challenger
  | skeptic
  | incentives_analyst
deriving Repr, DecidableEq

/-- Multi-axis verdict (`VerdictDimension`): five 1-5 integer axes + rationale. -/
structure VerdictDimension where
  methodological_soundness : Int
  evidence_strength : Int
  novelty_value : Int
  scientific_contribution : Int
  risk_of_overreach : Int
  rationale : String
deriving Repr, DecidableEq

/-- Pydantic range constraints on the five axes (ge=1, le=5 on each field). -/
def axesInRange (v : VerdictDimension) : Prop :=
  1 ≤ v.methodological_soundness ∧ v.methodological_soundness ≤ 5 ∧
  1 ≤ v.evidence_strength ∧ v.evidence_strength ≤ 5 ∧
  1 ≤ v.novelty_value ∧ v.novelty_value ≤ 5 ∧
  1 ≤ v.scientific_contribution ∧ v.scientific_contribution ≤ 5 ∧
  1 ≤ v.risk_of_overreach ∧ v.risk_of_overreach ≤ 5

/-- The `PHASE_TRANSITIONS` dict: successor of each non-terminal phase. -/
def PHASE_TRANSITIONS : DebatePhase → Option DebatePhase
  | .initialization => some .claim_enumeration
  | .claim_enumeration => some .methodological_review
  | .methodological_review => some .evidence_review
  | .evidence_review => some .coi_review
  | .coi_review => some .progress_evaluation
  | .progress_evaluation => some .deliberation
  | .deliberation => some .verdict_assignment
  | .verdict_assignment => some .synthesis
  | .synthesis => some .complete
  | .complete => none

/-- `advance_phase`: `PHASE_TRANSITIONS.get(current_phase, DebatePhase.COMPLETE)`. -/
def advance_phase (current_phase : DebatePhase) : DebatePhase :=
  (PHASE_TRANSITIONS current_phase).getD .complete

/-- Spec-side successor chain, written from the spec's words: the nine
non-terminal phases map along the fixed chain and `Complete` maps to itself. -/
def spec_next_phase : DebatePhase → DebatePhase
  | .initialization => .claim_enumeration
  | .claim_enumeration => .methodological_review
  | .methodological_review => .evidence_review
  | .evidence_review => .coi_review
  | .coi_review => .progress_evaluation
  | .progress_evaluation => .deliberation
  | .deliberation => .verdict_assignment
  | .verdict_assignment => .synthesis
  | .synthesis => .complete
  | .complete => .complete

/-- The `PHASE_PARTICIPANTS` dict (state_machine.py). -/
def PHASE_PARTICIPANTS : DebatePhase → Option (List AgentRole)
  | .initialization => some [.moderator]
  | .claim_enumeration => some [.moderator, .evidence_auditor, .methodologist]
  | .methodological_review => some [.moderator, .methodologist, .skeptic]
  | .evidence_review => some [.moderator, .evidence_auditor, .skeptic, .paradigm_challenger]
  | .coi_review => some [.moderator, .incentives_analyst]
  | .progress_evaluation => some [.moderator, .paradigm_challenger, .evidence_auditor]
  | .deliberation =>
      some [.moderator, .methodologist, .evidence_auditor, .paradigm_challenger,
            .skeptic, .incentives_analyst]
  | .verdict_assignment => some [.moderator]
  | .synthesis => some [.moderator]
  | .complete => none

/-- `get_active_agents`: `PHASE_PARTICIPANTS.get(phase, [])`. -/
def get_active_agents (phase : DebatePhase) : List AgentRole :=
  (PHASE_PARTICIPANTS phase).getD []

-- ===========================================================================
-- publishability.py
-- ===========================================================================

/-- Result record of the publishability gate (`PublishabilityResult`). -/
structure PublishabilityResult where
  decision : String
  publishable : Bool
  provisional : Bool
  gates : List (String × Bool)
  reasons : List String
deriving Repr, DecidableEq

/-- Embedding of `evaluate_publishability` (publishability.py, lines 42-124). -/
def evaluate_publishability (verdict : Option VerdictDimension)
    (extraction_limitations : List String) (principle_violations : List String) :
    PublishabilityResult :=
  match verdict with
  | none =>
      { decision := "unverified"
        publishable := false
        provisional := true
        gates := [("methodological_soundness>=3", false),
                  ("evidence_strength>=3", false),
                  ("risk_of_overreach<=3", false)]
        reasons := ["No verdict present"] }
  | some v =>
      let method_ok : Bool := decide (v.methodological_soundness ≥ 3)
      let evidence_ok : Bool := decide (v.evidence_strength ≥ 3)
      let overreach_ok : Bool := decide (v.risk_of_overreach ≤ 3)
      let gates := [("methodological_soundness>=3", method_ok),
                    ("evidence_strength>=3", evidence_ok),
                    ("risk_of_overreach<=3", overreach_ok)]
      let reasons : List String :=
        (if method_ok then [] else
          ["Methodological soundness too low (" ++ toString v.methodological_soundness ++ "/5)"]) ++
        (if evidence_ok then [] else
          ["Evidence strength too low (" ++ toString v.evidence_strength ++ "/5)"]) ++
        (if overreach_ok then [] else
          ["Risk of overreach too high (" ++ toString v.risk_of_overreach ++ "/5)"])
      let dp : String × Bool :=
        if method_ok && evidence_ok && overreach_ok then ("publishable", true)
        else if method_ok && overreach_ok && !evidence_ok then ("revise_resubmit", false)
        else ("reject", false)
      let extraction_limitations_list := extraction_limitations.filter pyStripTruthy
      let principle_violations_list := principle_violations.filter pyStripTruthy
      let provisional : Bool :=
        !extraction_limitations_list.isEmpty || !principle_violations_list.isEmpty
      let reasonsFinal :=
        reasons ++
          (if provisional then
            (if !extraction_limitations_list.isEmpty then
              ["Provisional: extraction/tooling limitations present"] else []) ++
            (if !principle_violations_list.isEmpty then
              ["Provisional: principle violations were flagged"] else [])
          else [])
      { decision := dp.1, publishable := dp.2, provisional := provisional,
        gates := gates, reasons := reasonsFinal }

/-- Gate-failure entries of the reasons list, one per failing gate, in the
order soundness, evidence, overreach (helper used to state C7). -/
def gateFailReasons (v : VerdictDimension) : List String :=
  (if v.methodological_soundness ≥ 3 then [] else
    ["Methodological soundness too low (" ++ toString v.methodological_soundness ++ "/5)"]) ++
  (if v.evidence_strength ≥ 3 then [] else
    ["Evidence strength too low (" ++ toString v.evidence_strength ++ "/5)"]) ++
  (if v.risk_of_overreach ≤ 3 then [] else
    ["Risk of overreach too high (" ++ toString v.risk_of_overreach ++ "/5)"])

/-- Provisional-source notes appended after the gate-failure entries. -/
def provisionalNotes (extraction_limitations principle_violations : List String) : List String :=
  (if (extraction_limitations.filter pyStripTruthy).isEmpty then []
   else ["Provisional: extraction/tooling limitations present"]) ++
  (if (principle_violations.filter pyStripTruthy).isEmpty then []
   else ["Provisional: principle violations were flagged"])

-- ===========================================================================
-- Theorems: C1, C7, C9
-- ===========================================================================

/-- C1: for every verdict with the five axes in [1,5] and any
limitations/violations lists, the decision is `publishable` iff
soundness ≥ 3 ∧ evidence ≥ 3 ∧ overreach ≤ 3, `revise_resubmit` iff
soundness ≥ 3 ∧ overreach ≤ 3 ∧ evidence < 3, and `reject` in every other
case; a missing verdict yields `unverified` with publishable = false and
provisional = true; and evaluate({5,5,5,5,4},[],[]) = reject. -/
theorem publishability_gate_decision (v : VerdictDimension)
    (lims viols : List String) (hrange : axesInRange v) :
    ((evaluate_publishability (some v) lims viols).decision = "publishable" ↔
       v.methodological_soundness ≥ 3 ∧ v.evidence_strength ≥ 3 ∧ v.risk_of_overreach ≤ 3) ∧
    ((evaluate_publishability (some v) lims viols).decision = "revise_resubmit" ↔
       v.methodological_soundness ≥ 3 ∧ v.risk_of_overreach ≤ 3 ∧ v.evidence_strength < 3) ∧
    ((evaluate_publishability (some v) lims viols).decision = "reject" ↔
       ¬(v.methodological_soundness ≥ 3 ∧ v.risk_of_overreach ≤ 3)) ∧
    ((evaluate_publishability none lims viols).decision = "unverified" ∧
       (evaluate_publishability none lims viols).publishable = false ∧
       (evaluate_publishability none lims viols).provisional = true) ∧
    (evaluate_publishability
        (some { methodological_soundness := 5, evidence_strength := 5, novelty_value := 5,
                scientific_contribution := 5, risk_of_overreach := 4, rationale := "r" })
        [] []).decision = "reject" := by
  clear hrange
  refine ⟨?_, ?_, ?_, ⟨rfl, rfl, rfl⟩, by decide⟩ <;>
    by_cases hm : v.methodological_soundness ≥ 3 <;>
    by_cases he : v.evidence_strength ≥ 3 <;>
    by_cases ho : v.risk_of_overreach ≤ 3 <;>
    simp [evaluate_publishability, hm, he, ho] <;>
    omega

/-- Witness for C1 at the concrete verdict {5,5,5,5,1}. -/
theorem publishability_gate_decision_witness :
    (evaluate_publishability
        (some { methodological_soundness := 5, evidence_strength := 5, novelty_value := 5,
                scientific_contribution := 5, risk_of_overreach := 1, rationale := "r" })
        [] []).decision = "publishable" :=
  ((publishability_gate_decision
      { methodological_soundness := 5, evidence_strength := 5, novelty_value := 5,
        scientific_contribution := 5, risk_of_overreach := 1, rationale := "r" }
      [] [] (by constructor <;> norm_num)).1).mpr (by norm_num)

/-- C7 counterexample: with the whitespace-only limitation list [" "], the
list passed in is non-empty, yet the result is not provisional — refuting
"provisional = true iff the limitations or violations list is non-empty". -/
theorem provisional_blank_limitation_cx :
    ([" "] : List String) ≠ [] ∧
    (evaluate_publishability
        (some { methodological_soundness := 5, evidence_strength := 5, novelty_value := 5,
                scientific_contribution := 5, risk_of_overreach := 1, rationale := "r" })
        [" "] []).provisional = false := by
  exact ⟨by decide, by decide⟩

/-- C7 (amended): provisional = true iff the limitations or violations list
has at least one entry that is non-blank after stripping whitespace; the
lists never change the decision or publishable flag; and the reasons list is
the gate-failure entries (order soundness, evidence, overreach) followed by
the provisional-source notes. -/
theorem provisional_iff_nonblank (v : VerdictDimension) (lims viols : List String) :
    ((evaluate_publishability (some v) lims viols).provisional
        = (lims.any pyStripTruthy || viols.any pyStripTruthy)) ∧
    ((evaluate_publishability (some v) lims viols).decision
        = (evaluate_publishability (some v) [] []).decision) ∧
    ((evaluate_publishability (some v) lims viols).publishable
        = (evaluate_publishability (some v) [] []).publishable) ∧
    ((evaluate_publishability (some v) lims viols).reasons
        = gateFailReasons v ++ provisionalNotes lims viols) := by
  have hfil : ∀ l : List String, (l.filter pyStripTruthy).isEmpty = !l.any pyStripTruthy := by
    intro l
    induction l with
    | nil => rfl
    | cons a t ih =>
        by_cases h : pyStripTruthy a = true <;>
          simp [List.filter, List.any, h, ih]
  refine ⟨?_, ?_, ?_, ?_⟩
  · simp [evaluate_publishability, hfil]
  · simp [evaluate_publishability]
  · simp [evaluate_publishability]
  · by_cases hm : v.methodological_soundness ≥ 3 <;>
    by_cases he : v.evidence_strength ≥ 3 <;>
    by_cases ho : v.risk_of_overreach ≤ 3 <;>
    by_cases h1 : (lims.filter pyStripTruthy).isEmpty = true <;>
    by_cases h2 : (viols.filter pyStripTruthy).isEmpty = true <;>
    simp [evaluate_publishability, gateFailReasons, provisionalNotes, hm, he, ho, h1, h2]

/-- C9: `next(phase)` is total and agrees with the fixed chain; the only
input unmapped by `PHASE_TRANSITIONS` is Complete, which is sent to itself,
so Complete is absorbing and `next` is idempotent there. -/
theorem phase_chain_total :
    (∀ p, advance_phase p = spec_next_phase p) ∧
    (∀ p, PHASE_TRANSITIONS p = none ↔ p = DebatePhase.complete) ∧
    advance_phase DebatePhase.complete = DebatePhase.complete ∧
    advance_phase (advance_phase DebatePhase.complete) = DebatePhase.complete := by
  refine ⟨fun p => ?_, fun p => ?_, rfl, rfl⟩ <;> cases p <;> simp [advance_phase, PHASE_TRANSITIONS, spec_next_phase]

-- ===========================================================================
-- persistence/reviews_repo.py : verdict-version chain
-- ===========================================================================

/-- One row of the `verdict_versions` table. The verdict snapshot is a JSON
dict, modelled as an opaque key-value list (the repository never inspects
it); synthesis is the synthesis text column. -/
structure VerdictVersionRow where
  review_id : String
  version : Int
  verdict : List (String × Int)
  synthesis : String
deriving Repr, DecidableEq

/-- The `verdict_versions` table (insert order preserved; insert-only). -/
abbrev VerdictDb := List VerdictVersionRow

/-- Python `d or \x7b\x7d` on a dict-valued column: an empty dict is falsy. -/
def pyOrDict (d : List (String × Int)) : List (String × Int) :=
  if d.isEmpty then [] else d

/-- Embedding of `get_latest_verdict_version`: select rows of the review,
order by version descending, limit 1 (the maximal-version row). -/
def get_latest_verdict_version (db : VerdictDb) (review_id : String) :
    Option VerdictVersionRow :=
  (db.filter (fun r => r.review_id = review_id)).foldl
    (fun acc r =>
      match acc with
      | none => some r
      | some a => if r.version > a.version then some r else some a)
    none

/-- Embedding of `create_verdict_version`: insert one row (no update/delete). -/
def create_verdict_version (db : VerdictDb) (review_id : String) (version : Int)
    (verdict : List (String × Int)) (synthesis : String) : VerdictDb :=
  db ++ [{ review_id := review_id, version := version,
           verdict := verdict, synthesis := synthesis }]

/-- Embedding of `append_verdict_version`: next version is latest + 1 (or 1
when the review has no version yet); returns the new table and the version. -/
def append_verdict_version (db : VerdictDb) (review_id : String)
    (verdict : List (String × Int)) (synthesis : String) : VerdictDb × Int :=
  let latest := get_latest_verdict_version db review_id
  let next_version : Int :=
    match latest with
    | some l => l.version + 1
    | none => 1
  (create_verdict_version db review_id next_version verdict synthesis, next_version)

/-- The delimiter the repository puts before a forward-change note. -/
def forwardNoteDelim : String := "\n\n---\nForward-only change note:\n"

/-- Embedding of `apply_forward_change_note_as_new_version`: raises (error)
when the review has no verdict version; otherwise appends a new version that
reuses the previous verdict snapshot and extends the (right-stripped)
previous synthesis with the delimited note. -/
def apply_forward_change_note_as_new_version (db : VerdictDb) (review_id : String)
    (forward_change_note : String) : Except String (VerdictDb × Int) :=
  match get_latest_verdict_version db review_id with
  | none => .error "No existing verdict version found for review"
  | some latest =>
      let new_synthesis :=
        pyRstrip latest.synthesis ++ forwardNoteDelim ++ forward_change_note
      .ok (append_verdict_version db review_id (pyOrDict latest.verdict) new_synthesis)

/-- Table a caller observes after the call: unchanged when the call raises
(the Python function raises before any insert executes). -/
def dbAfterForwardNote (db : VerdictDb) (review_id note : String) : VerdictDb :=
  match apply_forward_change_note_as_new_version db review_id note with
  | .ok (db2, _) => db2
  | .error _ => db

theorem pyOrDict_eq (d : List (String × Int)) : pyOrDict d = d := by
  cases d <;> simp [pyOrDict]

theorem charsLeads_append (l m : List Char) : charsLeads l (l ++ m) = true := by
  induction l with
  | nil => rfl
  | cons a t ih => simp [charsLeads, ih]

/-- Concrete review row whose synthesis ends in a trailing space. -/
def cxTrailingRow : VerdictVersionRow :=
  { review_id := "r1", version := 1,
    verdict := [("methodological_soundness", 4)],
    synthesis := "Initial synthesis. " }

/-- C3 counterexample: for a version-1 row whose synthesis ends with a
trailing space, the appended version-2 synthesis is NOT a prefix-preserving
extension of the version-1 synthesis: `rstrip` removes the trailing space
before the delimited note is appended. -/
theorem forward_note_prefix_cx :
    apply_forward_change_note_as_new_version [cxTrailingRow] "r1" "note" =
      .ok ([cxTrailingRow,
            { review_id := "r1", version := 2,
              verdict := [("methodological_soundness", 4)],
              synthesis := "Initial synthesis.\n\n---\nForward-only change note:\nnote" }], 2) ∧
    textLeads cxTrailingRow.synthesis
        "Initial synthesis.\n\n---\nForward-only change note:\nnote" = false := by
  exact ⟨by rfl, by decide⟩

/-- C3 (amended): appending a forward-change note to a review whose latest
version is n creates version n + 1 as a new inserted row, reusing the same
verdict snapshot, with synthesis = right-stripped previous synthesis + the
delimited note block; the prior rows (the version-n row included) are left
untouched, and whenever the previous synthesis has no trailing whitespace
the new synthesis is a strict prefix-preserving extension of it. -/
theorem forward_note_new_version (db : VerdictDb) (rid note : String)
    (r : VerdictVersionRow) (h : get_latest_verdict_version db rid = some r) :
    apply_forward_change_note_as_new_version db rid note =
      .ok (db ++ [{ review_id := rid, version := r.version + 1, verdict := r.verdict,
                    synthesis := pyRstrip r.synthesis ++ forwardNoteDelim ++ note }],
           r.version + 1) ∧
    (pyRstrip r.synthesis = r.synthesis →
      textLeads r.synthesis (pyRstrip r.synthesis ++ forwardNoteDelim ++ note) = true ∧
      pyRstrip r.synthesis ++ forwardNoteDelim ++ note ≠ r.synthesis) := by
  constructor
  · simp [apply_forward_change_note_as_new_version, h, append_verdict_version,
          create_verdict_version, pyOrDict_eq]
  · intro hs
    constructor
    · rw [hs, textLeads, String.append_assoc]
      have : (r.synthesis ++ (forwardNoteDelim ++ note)).data
          = r.synthesis.data ++ (forwardNoteDelim ++ note).data := by
        simp
      rw [this]
      exact charsLeads_append _ _
    · rw [hs]
      intro hcontra
      have hlen := congrArg String.length hcontra
      rw [String.length_append, String.length_append] at hlen
      have hd : 0 < forwardNoteDelim.length := by decide
      omega

/-- Witness for C3 (amended) at a one-row table whose synthesis has no
trailing whitespace. -/
theorem forward_note_new_version_witness :
    apply_forward_change_note_as_new_version
        [{ review_id := "r1", version := 1, verdict := [("evidence_strength", 2)],
           synthesis := "Base." }] "r1" "addendum" =
      .ok ([{ review_id := "r1", version := 1, verdict := [("evidence_strength", 2)],
              synthesis := "Base." },
            { review_id := "r1", version := 2, verdict := [("evidence_strength", 2)],
              synthesis := pyRstrip "Base." ++ forwardNoteDelim ++ "addendum" }], 2) ∧
    textLeads "Base." (pyRstrip "Base." ++ forwardNoteDelim ++ "addendum") = true := by
  have h := forward_note_new_version
      [{ review_id := "r1", version := 1, verdict := [("evidence_strength", 2)],
         synthesis := "Base." }] "r1" "addendum"
      { review_id := "r1", version := 1, verdict := [("evidence_strength", 2)],
        synthesis := "Base." } (by decide)
  exact ⟨h.1, (h.2 (by decide)).1⟩

/-- C10: calling the forward-change-note operation on a review that has no
existing verdict version raises (returns the error) and inserts nothing —
the verdict-version table is unchanged on this failure. -/
theorem forward_note_missing_version_error (db : VerdictDb) (rid note : String)
    (h : get_latest_verdict_version db rid = none) :
    apply_forward_change_note_as_new_version db rid note =
      .error "No existing verdict version found for review" ∧
    dbAfterForwardNote db rid note = db := by
  simp [apply_forward_change_note_as_new_version, dbAfterForwardNote, h]

/-- Witness for C10 at the empty table. -/
theorem forward_note_missing_version_error_witness :
    apply_forward_change_note_as_new_version ([] : VerdictDb) "r" "n" =
      .error "No existing verdict version found for review" ∧
    dbAfterForwardNote ([] : VerdictDb) "r" "n" = [] :=
  forward_note_missing_version_error [] "r" "n" rfl

-- ===========================================================================
-- orchestration/debate_protocol.py : messages, progress bus, phase nodes
-- ===========================================================================

/-- Parsed JSON value, the shape of the Agent-Runner `raw` payload
(floating-point numbers abstracted to integers; no claim depends on them). -/
inductive JVal where
  | jnull
  | jbool (b : Bool)
  | jnum (n : Int)
  | jstr (s : String)
  | jlist (xs : List JVal)
  | jobj (kvs : List (String × JVal))
deriving Repr

/-- Python truthiness of a JSON value. -/
def jTruthy : JVal → Bool
  | .jnull => false
  | .jbool b => b
  | .jnum n => n != 0
  | .jstr s => !s.isEmpty
  | .jlist xs => !xs.isEmpty
  | .jobj kvs => !kvs.isEmpty

/-- Python `d.get(key)` on a JSON dict (None when missing or not a dict). -/
def jGet : JVal → String → Option JVal
  | .jobj kvs, k => kvs.lookup k
  | _, _ => none

/-- Python `str(x)` of a JSON value (container rendering abstracted; the
claims only use it on strings, where it is the identity). -/
def jStr : JVal → String
  | .jnull => "None"
  | .jbool true => "True"
  | .jbool false => "False"
  | .jnum n => toString n
  | .jstr s => s
  | .jlist _ => "[...]"
  | .jobj _ => "\x7b...\x7d"

/-- Normalized paper information (`PaperContext`). -/
structure PaperContext where
  arxiv_id : String
  title : String
  authors : List String
  abstract : String
  claims : List String
  methods : String
  results : String
  full_text_excerpt : String
  limitations : List String
deriving Repr, DecidableEq

/-- Model identity attached to an Agent-Runner result (temperature and
max-tokens are floats/options irrelevant to every claim, omitted). -/
structure ModelInfo where
  provider : String
  model : String
deriving Repr, DecidableEq

/-- An `AgentMessage` (timestamp omitted: wall-clock time is not statable). -/
structure AgentMessage where
  agent : AgentRole
  phase : DebatePhase
  content : String
  model_provider : Option String
  model_name : Option String
  references : List String
  flags_violation : Bool
deriving Repr, DecidableEq

/-- The `DebateState` aggregate (TypedDict) for one run. Findings maps are
insert-ordered string-to-string dicts; `thread_id` models the `_thread_id`
key; timestamps are dropped from `phase_transitions`. -/
structure DebateState where
  paper : PaperContext
  thread_id : Option String
  phase : DebatePhase
  messages : List AgentMessage
  model_divergence : List String
  enumerated_claims : List String
  methodological_findings : List (String × String)
  evidence_findings : List (String × String)
  coi_findings : List (String × String)
  verdict : Option VerdictDimension
  synthesis : String
  phase_transitions : List DebatePhase
  principle_violations : List String
  extraction_limitations : List String
deriving Repr, DecidableEq

/-- A progress callback either returns or raises. -/
inductive CbOutcome where
  | ok
  | raises
deriving Repr, DecidableEq

/-- `ProgressCallback`: the registered per-run callback. -/
def ProgressCallback := AgentMessage → CbOutcome

/-- The `_PROGRESS_CALLBACKS` registry (thread id → callback). -/
abbrev CallbackRegistry := List (String × ProgressCallback)

/-- Registry lookup (`_PROGRESS_CALLBACKS.get(str(tid))`). -/
def lookupCallback (reg : CallbackRegistry) (tid : String) : Option ProgressCallback :=
  reg.lookup tid

/-- Construct the `AgentMessage` of `_append_agent_message`
(`(model or \x7b\x7d).get(...)` on the optional model dict). -/
def mkAgentMessage (agent_role : AgentRole) (phase : DebatePhase) (content : String)
    (model : Option ModelInfo) : AgentMessage :=
  { agent := agent_role, phase := phase, content := content,
    model_provider := model.map (fun m => m.provider),
    model_name := model.map (fun m => m.model),
    references := [], flags_violation := false }

/-- Result of one emission: the updated state plus the messages actually
handed to a progress callback. -/
structure Emit where
  state : DebateState
  notified : List AgentMessage
deriving Repr

/-- Embedding of `_append_agent_message`: append the message to the log,
then look up the callback under `state.get("_thread_id") or paper.arxiv_id`
and invoke it; any exception the callback raises is caught and discarded
(`except Exception: pass`), so both callback outcomes leave the same state. -/
def appendAgentMessage (reg : CallbackRegistry) (state : DebateState)
    (agent_role : AgentRole) (phase : DebatePhase) (content : String)
    (model : Option ModelInfo) : Emit :=
  let msg := mkAgentMessage agent_role phase content model
  let state2 := { state with messages := state.messages ++ [msg] }
  let tid := pyOrStr state.thread_id state.paper.arxiv_id
  match lookupCallback reg tid with
  | none => { state := state2, notified := [] }
  | some cb =>
      match cb msg with
      | .ok => { state := state2, notified := [msg] }
      | .raises => { state := state2, notified := [msg] }

/-- The Agent-Runner JSON-mode result contract: content text, parsed JSON
object or null, and the model identity used. -/
structure AgentResponse where
  content : String
  raw : Option JVal
  model : ModelInfo

/-- Embedding of `_run_agent_json`: append the responding agent's message
(via `_append_agent_message`) and hand back `result.raw`. -/
def runAgentJson (reg : CallbackRegistry) (agent_key : AgentRole) (phase : DebatePhase)
    (resp : AgentResponse) (state : DebateState) : Emit × Option JVal :=
  (appendAgentMessage reg state agent_key phase resp.content (some resp.model), resp.raw)

/-- Python dict assignment `d[k] = v` on an insert-ordered dict. -/
def pyDictInsert (d : List (String × String)) (k v : String) : List (String × String) :=
  if d.any (fun kv => kv.1 == k) then
    d.map (fun kv => if kv.1 == k then (kv.1, v) else kv)
  else d ++ [(k, v)]

/-- Python `d.update(new)`. -/
def pyDictUpdate (d : List (String × String)) (new : List (String × String)) :
    List (String × String) :=
  new.foldl (fun acc kv => pyDictInsert acc kv.1 kv.2) d

/-- Python `d.setdefault(k, v)`. -/
def pyDictSetdefault (d : List (String × String)) (k v : String) :
    List (String × String) :=
  if d.any (fun kv => kv.1 == k) then d else d ++ [(k, v)]

/-- Phase entry: set `state["phase"]` and append to `phase_transitions`. -/
def enterPhase (state : DebateState) (p : DebatePhase) : DebateState :=
  { state with phase := p, phase_transitions := state.phase_transitions ++ [p] }

/-- Embedding of `enumerate_claims` (phase 1), parameterised by the
Agent-Runner response. -/
def enumerate_claims (reg : CallbackRegistry) (state : DebateState)
    (resp : AgentResponse) : Emit :=
  let st := enterPhase state .claim_enumeration
  let e1 := appendAgentMessage reg st .moderator .claim_enumeration
      "Phase 1: Enumerate explicit claims (no judgment)." none
  let (e2, claims_raw) := runAgentJson reg .evidence_auditor .claim_enumeration resp e1.state
  let st2 := e2.state
  let parsed : Option (List String) × DebateState :=
    match claims_raw with
    | some j =>
        if jTruthy j then
          match jGet j "claims" with
          | some (.jlist cs) =>
              let claims := (cs.map (fun c => pyStrip (jStr c))).filter (fun s => !s.isEmpty)
              let st3 :=
                match jGet j "extraction_limitations" with
                | some (.jlist ls) =>
                    { st2 with extraction_limitations :=
                        st2.extraction_limitations ++ ls.map jStr }
                | _ => st2
              (some claims, st3)
          | _ => (none, st2)
        else (none, st2)
    | none => (none, st2)
  let st4 := parsed.2
  let fallbackNote := "Claim extraction JSON parse failed; fell back to heuristic claims from abstract."
  let final : List String × DebateState :=
    match parsed.1 with
    | some cs =>
        if cs.isEmpty then
          (pyOrList state.paper.claims [state.paper.abstract],
           { st4 with extraction_limitations := st4.extraction_limitations ++ [fallbackNote] })
        else (cs, st4)
    | none =>
        (pyOrList state.paper.claims [state.paper.abstract],
         { st4 with extraction_limitations := st4.extraction_limitations ++ [fallbackNote] })
  { state := { final.2 with enumerated_claims := final.1 },
    notified := e1.notified ++ e2.notified }

/-- Embedding of `review_methodology` (phase 2). -/
def review_methodology (reg : CallbackRegistry) (state : DebateState)
    (resp : AgentResponse) : Emit :=
  let st := enterPhase state .methodological_review
  let e1 := appendAgentMessage reg st .moderator .methodological_review
      "Phase 2: Evaluate methodology only (methods ≠ truth)." none
  let (e2, meth_raw) := runAgentJson reg .methodologist .methodological_review resp e1.state
  let st2 := e2.state
  let parsed : List (String × String) × DebateState :=
    match meth_raw with
    | some j =>
        if jTruthy j then
          match jGet j "findings" with
          | some (.jobj kvs) =>
              let f := pyDictUpdate [] (kvs.map (fun kv => (kv.1, jStr kv.2)))
              let st3 :=
                match jGet j "extraction_limitations" with
                | some (.jlist ls) =>
                    { st2 with extraction_limitations :=
                        st2.extraction_limitations ++ ls.map jStr }
                | _ => st2
              (f, st3)
          | _ => ([], st2)
        else ([], st2)
    | none => ([], st2)
  let st4 := parsed.2
  let final : List (String × String) × DebateState :=
    if parsed.1.isEmpty then
      ([("note", "Methodology review unavailable (LLM JSON parse failed).")],
       { st4 with extraction_limitations := st4.extraction_limitations ++
           ["Methodology JSON parse failed; findings may be incomplete."] })
    else (parsed.1, st4)
  { state := { final.2 with methodological_findings := final.1 },
    notified := e1.notified ++ e2.notified }

/-- Embedding of `review_evidence` (phase 3). -/
def review_evidence (reg : CallbackRegistry) (state : DebateState)
    (resp : AgentResponse) : Emit :=
  let st := enterPhase state .evidence_review
  let e1 := appendAgentMessage reg st .moderator .evidence_review
      "Phase 3: Does evidence support claims? Include alternatives and parity checks." none
  let (e2, ev_raw) := runAgentJson reg .evidence_auditor .evidence_review resp e1.state
  let st2 := e2.state
  let findings0 : List (String × String) :=
    match ev_raw with
    | some j =>
        if jTruthy j then
          match jGet j "findings" with
          | some (.jobj kvs) => pyDictUpdate [] (kvs.map (fun kv => (kv.1, jStr kv.2)))
          | _ => []
        else []
    | none => []
  let findings1 : List (String × String) :=
    match ev_raw with
    | some j =>
        if jTruthy j then
          match jGet j "overall" with
          | some (.jstr s) => pyDictSetdefault findings0 "overall" s
          | _ => findings0
        else findings0
    | none => findings0
  let st3 :=
    match ev_raw with
    | some j =>
        if jTruthy j then
          match jGet j "extraction_limitations" with
          | some (.jlist ls) =>
              { st2 with extraction_limitations :=
                  st2.extraction_limitations ++ ls.map jStr }
          | _ => st2
        else st2
    | none => st2
  let final : List (String × String) × DebateState :=
    if findings1.isEmpty then
      ([("note", "Evidence review unavailable (LLM JSON parse failed).")],
       { st3 with extraction_limitations := st3.extraction_limitations ++
           ["Evidence JSON parse failed; findings may be incomplete."] })
    else (findings1, st3)
  { state := { final.2 with evidence_findings := final.1 },
    notified := e1.notified ++ e2.notified }

/-- Outcome of the external conflict-of-interest collaborator call
(`asyncio.run(analyze_conflicts_of_interest(...))`): a serialized report, a
RuntimeError, or an exception of any other type. -/
inductive CoiOutcome where
  | ok (report : String)
  | raisesRuntime (msg : String)
  | raisesOther (msg : String)

/-- Embedding of `review_coi` (phase 4). The source catches ONLY
`RuntimeError` (the event-loop constraint); an exception of any other type
propagates out of the node and aborts the run, hence the `Except`. -/
def review_coi (reg : CallbackRegistry) (state : DebateState)
    (outcome : CoiOutcome) : Except String Emit :=
  let st := enterPhase state .coi_review
  let e1 := appendAgentMessage reg st .moderator .coi_review
      "Phase 4: Surface COI/incentives as facts, not dismissal." none
  match outcome with
  | .ok report =>
      .ok { state := { e1.state with coi_findings := [("coi_report", report)] },
            notified := e1.notified }
  | .raisesRuntime _ =>
      .ok { state := { e1.state with
              coi_findings :=
                [("coi_report", "COI enrichment not executed (event loop constraint).")],
              extraction_limitations := e1.state.extraction_limitations ++
                ["COI tool not executed due to event loop constraint."] },
            notified := e1.notified }
  | .raisesOther msg => .error msg

/-- Embedding of `evaluate_progress` (phase 5): merges findings under the
`progress::` namespace into `evidence_findings` only when the payload
parses; nothing is substituted and no limitation is recorded otherwise. -/
def evaluate_progress (reg : CallbackRegistry) (state : DebateState)
    (resp : AgentResponse) : Emit :=
  let st := enterPhase state .progress_evaluation
  let e1 := appendAgentMessage reg st .moderator .progress_evaluation
      "Phase 5: Evaluate progress-of-science value (even if wrong)." none
  let (e2, prog_raw) := runAgentJson reg .paradigm_challenger .progress_evaluation resp e1.state
  let st2 := e2.state
  let st3 :=
    match prog_raw with
    | some j =>
        if jTruthy j then
          match jGet j "findings" with
          | some (.jobj kvs) =>
              let merged := kvs.foldl
                (fun acc kv => pyDictSetdefault acc ("progress::" ++ kv.1) (jStr kv.2))
                st2.evidence_findings
              { st2 with evidence_findings := merged }
          | _ => st2
        else st2
    | none => st2
  { state := st3, notified := e1.notified ++ e2.notified }

/-- Embedding of `deliberate`: one `_run_agent_json` call per role returned
by `get_active_agents(DELIBERATION)`, sequentially, in declared order. -/
def deliberate (reg : CallbackRegistry) (state : DebateState)
    (resp : AgentRole → AgentResponse) : Emit :=
  let st := enterPhase state .deliberation
  (get_active_agents .deliberation).foldl
    (fun acc role =>
      let r := runAgentJson reg role .deliberation (resp role) acc.state
      { state := r.1.state, notified := acc.notified ++ r.1.notified })
    { state := st, notified := [] }

/-- The neutral placeholder verdict substituted on verdict-parse failure. -/
def placeholderVerdict : VerdictDimension :=
  { methodological_soundness := 3, evidence_strength := 3, novelty_value := 3,
    scientific_contribution := 3, risk_of_overreach := 3,
    rationale := "Verdict JSON parse failed; placeholder scores used." }

/-- The moderator framing text of the verdict-assignment phase. -/
def verdictFramingText : String :=
  "Verdict Assignment\n\nI will now synthesize agent input into multi-axis scores.\nAgents: Provide your dimensional assessments."

/-- Integer field of a JSON dict. -/
def jGetInt (j : JVal) (k : String) : Option Int :=
  match jGet j k with
  | some (.jnum n) => some n
  | _ => none

/-- Pydantic `VerdictDimension.model_validate`: five integer axes each in
[1,5] plus a string rationale (string-to-int coercion corner cases
abstracted; failure in any form takes the same fallback branch). -/
def validateVerdict (j : JVal) : Option VerdictDimension :=
  match jGetInt j "methodological_soundness", jGetInt j "evidence_strength",
        jGetInt j "novelty_value", jGetInt j "scientific_contribution",
        jGetInt j "risk_of_overreach", jGet j "rationale" with
  | some ms, some es, some nv, some sc, some ro, some (.jstr ra) =>
      if 1 ≤ ms ∧ ms ≤ 5 ∧ 1 ≤ es ∧ es ≤ 5 ∧ 1 ≤ nv ∧ nv ≤ 5 ∧
         1 ≤ sc ∧ sc ≤ 5 ∧ 1 ≤ ro ∧ ro ≤ 5 then
        some { methodological_soundness := ms, evidence_strength := es,
               novelty_value := nv, scientific_contribution := sc,
               risk_of_overreach := ro, rationale := ra }
      else none
  | _, _, _, _, _, _ => none

/-- Embedding of `assign_verdict` (phase 6). The framing message is appended
DIRECTLY to the log (`state["messages"].append(moderator_msg)`), bypassing
`_append_agent_message`, so no progress callback is invoked for it; the
moderator's scored response goes through `_run_agent_json` as usual. -/
def assign_verdict (reg : CallbackRegistry) (state : DebateState)
    (resp : AgentResponse) : Emit :=
  let st := enterPhase state .verdict_assignment
  let framing := mkAgentMessage .moderator .verdict_assignment verdictFramingText none
  let st1 := { st with messages := st.messages ++ [framing] }
  let r := runAgentJson reg .moderator .verdict_assignment resp st1
  let st2 := r.1.state
  let st3 :=
    match r.2.bind validateVerdict with
    | some v => { st2 with verdict := some v }
    | none =>
        { st2 with
          verdict := some placeholderVerdict
          extraction_limitations := st2.extraction_limitations ++
            ["Verdict JSON parse failed; placeholder verdict used."] }
  { state := st3, notified := r.1.notified }

-- ===========================================================================
-- Shared lemmas and concrete fixtures for the orchestration theorems
-- ===========================================================================

theorem appendAgentMessage_state (reg : CallbackRegistry) (st : DebateState)
    (role : AgentRole) (ph : DebatePhase) (content : String) (model : Option ModelInfo) :
    (appendAgentMessage reg st role ph content model).state =
      { st with messages := st.messages ++ [mkAgentMessage role ph content model] } := by
  simp only [appendAgentMessage]
  split
  · rfl
  · split <;> rfl

theorem appendAgentMessage_notified (reg : CallbackRegistry) (st : DebateState)
    (role : AgentRole) (ph : DebatePhase) (content : String) (model : Option ModelInfo) :
    (appendAgentMessage reg st role ph content model).notified =
      (match lookupCallback reg (pyOrStr st.thread_id st.paper.arxiv_id) with
       | some _ => [mkAgentMessage role ph content model]
       | none => []) := by
  simp only [appendAgentMessage]
  split <;> rename_i h
  · simp [h]
  · split <;> simp [h]

/-- Concrete paper fixture. -/
def samplePaper : PaperContext :=
  { arxiv_id := "1234.5678", title := "T", authors := ["A"],
    abstract := "Abstract text", claims := ["c1"], methods := "", results := "",
    full_text_excerpt := "", limitations := [] }

/-- Concrete run-state fixture at the start of a run. -/
def sampleState : DebateState :=
  { paper := samplePaper, thread_id := some "job:1", phase := .initialization,
    messages := [], model_divergence := [], enumerated_claims := [],
    methodological_findings := [], evidence_findings := [], coi_findings := [],
    verdict := none, synthesis := "", phase_transitions := [],
    principle_violations := [], extraction_limitations := [] }

/-- Agent-Runner response whose structured payload failed to parse
(`raw` is null). -/
def noJsonResp : AgentResponse :=
  { content := "garbled non-JSON output", raw := none,
    model := { provider := "openai", model := "m" } }

/-- A registered progress callback that returns normally. -/
def okCallback : ProgressCallback := fun _ => CbOutcome.ok

/-- Registry with a callback registered under the sample run's thread id. -/
def sampleRegistry : CallbackRegistry := [("job:1", okCallback)]

-- ===========================================================================
-- Theorems: C2 (corrected), C5 (corrected), C6 (corrected), C8 (corrected)
-- ===========================================================================

/-- C2 counterexample: at the progress-evaluation phase a structured-parse
failure is silent — the cumulative extraction-limitations list stays empty
(no entry is appended) and no safe default is merged, refuting the claim
that EVERY such phase records its degradation. -/
theorem progress_parse_failure_silent_cx :
    (evaluate_progress [] sampleState noJsonResp).state.extraction_limitations = [] ∧
    (evaluate_progress [] sampleState noJsonResp).state.evidence_findings = [] := by
  exact ⟨rfl, rfl⟩

/-- C2 (amended): on structured-parse failure, the claim-enumeration,
methodological-review, evidence-review and verdict-assignment phases each
substitute their phase-specific safe default AND append a human-readable
entry to the cumulative limitations list; the progress-evaluation phase,
however, merges nothing and records nothing — its degradation is silent. -/
theorem parse_failure_defaults_recorded (reg : CallbackRegistry) (state : DebateState)
    (content : String) (model : ModelInfo) :
    ((enumerate_claims reg state ⟨content, none, model⟩).state.enumerated_claims
        = pyOrList state.paper.claims [state.paper.abstract]) ∧
    ((enumerate_claims reg state ⟨content, none, model⟩).state.extraction_limitations
        = state.extraction_limitations ++
          ["Claim extraction JSON parse failed; fell back to heuristic claims from abstract."]) ∧
    ((review_methodology reg state ⟨content, none, model⟩).state.methodological_findings
        = [("note", "Methodology review unavailable (LLM JSON parse failed).")]) ∧
    ((review_methodology reg state ⟨content, none, model⟩).state.extraction_limitations
        = state.extraction_limitations ++
          ["Methodology JSON parse failed; findings may be incomplete."]) ∧
    ((review_evidence reg state ⟨content, none, model⟩).state.evidence_findings
        = [("note", "Evidence review unavailable (LLM JSON parse failed).")]) ∧
    ((review_evidence reg state ⟨content, none, model⟩).state.extraction_limitations
        = state.extraction_limitations ++
          ["Evidence JSON parse failed; findings may be incomplete."]) ∧
    ((assign_verdict reg state ⟨content, none, model⟩).state.verdict
        = some placeholderVerdict) ∧
    ((assign_verdict reg state ⟨content, none, model⟩).state.extraction_limitations
        = state.extraction_limitations ++
          ["Verdict JSON parse failed; placeholder verdict used."]) ∧
    ((evaluate_progress reg state ⟨content, none, model⟩).state.evidence_findings
        = state.evidence_findings) ∧
    ((evaluate_progress reg state ⟨content, none, model⟩).state.extraction_limitations
        = state.extraction_limitations) := by
  refine ⟨?_, ?_, ?_, ?_, ?_, ?_, ?_, ?_, ?_, ?_⟩ <;>
    simp [enumerate_claims, review_methodology, review_evidence, assign_verdict,
          evaluate_progress, runAgentJson, appendAgentMessage_state, enterPhase,
          validateVerdict, jGetInt, jGet]

/-- C5 counterexample: in the Deliberation phase the moderator IS among the
invoked roles (one emitted message is the moderator's), refuting the claim
that the moderator is excluded. -/
theorem deliberation_includes_moderator_cx :
    ((deliberate [] sampleState (fun _ => noJsonResp)).state.messages.map
        (fun m => m.agent))
      = [AgentRole.moderator, .methodologist, .evidence_auditor,
         .paradigm_challenger, .skeptic, .incentives_analyst] ∧
    AgentRole.moderator ∈
      ((deliberate [] sampleState (fun _ => noJsonResp)).state.messages.map
        (fun m => m.agent)) := by
  exact ⟨by decide, by decide⟩

/-- C5 (amended): the Deliberation phase invokes exactly the declared
participant list of the phase — all six roles, the moderator included —
sequentially, in declared order, with one Agent-Runner call (hence one
appended message) per role. -/
theorem deliberation_sequential_all_roles (reg : CallbackRegistry)
    (state : DebateState) (resp : AgentRole → AgentResponse) :
    ((deliberate reg state resp).state.messages
        = state.messages ++ (get_active_agents .deliberation).map
            (fun role =>
              mkAgentMessage role .deliberation (resp role).content (some (resp role).model))) ∧
    (get_active_agents .deliberation
        = [.moderator, .methodologist, .evidence_auditor, .paradigm_challenger,
           .skeptic, .incentives_analyst]) := by
  constructor
  · simp [deliberate, get_active_agents, PHASE_PARTICIPANTS, runAgentJson,
          appendAgentMessage_state, enterPhase]
  · rfl

/-- C6 counterexample: when the conflict-of-interest collaborator raises an
exception that is not a RuntimeError, `review_coi` propagates it — the run
is aborted, no placeholder is substituted and no limitation is recorded —
refuting the claim that any collaborator exception is caught. -/
theorem coi_nonruntime_error_aborts_cx :
    review_coi [] sampleState (CoiOutcome.raisesOther "ValueError: lookup failed")
      = .error "ValueError: lookup failed" := rfl

/-- C6 (amended): only a RuntimeError from the COI collaborator is caught —
then a placeholder finding is substituted, a limitation is recorded, and
the phase returns normally; an exception of any other type propagates and
aborts the run. A successful collaborator call stores its report. -/
theorem coi_runtime_error_fallback (reg : CallbackRegistry) (state : DebateState)
    (report msg : String) :
    (∃ em, review_coi reg state (CoiOutcome.raisesRuntime msg) = .ok em ∧
      em.state.coi_findings
        = [("coi_report", "COI enrichment not executed (event loop constraint).")] ∧
      em.state.extraction_limitations
        = state.extraction_limitations ++
          ["COI tool not executed due to event loop constraint."] ∧
      em.state.phase = .coi_review) ∧
    (∃ em, review_coi reg state (CoiOutcome.ok report) = .ok em ∧
      em.state.coi_findings = [("coi_report", report)]) ∧
    review_coi reg state (CoiOutcome.raisesOther msg) = .error msg := by
  refine ⟨⟨_, rfl, ?_, ?_, ?_⟩, ⟨_, rfl, ?_⟩, rfl⟩ <;>
    simp [review_coi, appendAgentMessage_state, enterPhase]

/-- C8 counterexample: with a callback registered under the run's thread id,
the verdict-assignment framing message is appended to the message log but
is NOT forwarded to the callback, refuting "every message emitted during a
run is forwarded to the progress callback". -/
theorem verdict_framing_not_forwarded_cx :
    (mkAgentMessage .moderator .verdict_assignment verdictFramingText none)
        ∈ (assign_verdict sampleRegistry sampleState noJsonResp).state.messages ∧
    (mkAgentMessage .moderator .verdict_assignment verdictFramingText none)
        ∉ (assign_verdict sampleRegistry sampleState noJsonResp).notified ∧
    (lookupCallback sampleRegistry
        (pyOrStr sampleState.thread_id sampleState.paper.arxiv_id)).isSome = true := by
  refine ⟨by decide, by decide, by decide⟩

/-- C8 (amended): a message emitted through `_append_agent_message` is
always appended to the log, whatever the registry holds and whether the
callback returns or raises (exceptions are caught and discarded, so a
failing callback never alters the log or aborts the run), and it is handed
to the callback exactly when one is registered under the run's identifier;
the verdict-assignment framing message, however, is appended directly to
the log and never forwarded — only the moderator's response message of that
phase reaches the callback. -/
theorem message_append_callback_isolated (reg : CallbackRegistry) (st : DebateState)
    (role : AgentRole) (ph : DebatePhase) (content : String)
    (model : Option ModelInfo) (resp : AgentResponse) :
    ((appendAgentMessage reg st role ph content model).state.messages
        = st.messages ++ [mkAgentMessage role ph content model]) ∧
    ((appendAgentMessage reg st role ph content model).notified
        = (match lookupCallback reg (pyOrStr st.thread_id st.paper.arxiv_id) with
           | some _ => [mkAgentMessage role ph content model]
           | none => [])) ∧
    ((assign_verdict reg st resp).state.messages
        = st.messages ++
          [mkAgentMessage .moderator .verdict_assignment verdictFramingText none,
           mkAgentMessage .moderator .verdict_assignment resp.content (some resp.model)]) ∧
    ((assign_verdict reg st resp).notified
        = (match lookupCallback reg (pyOrStr st.thread_id st.paper.arxiv_id) with
           | some _ =>
               [mkAgentMessage .moderator .verdict_assignment resp.content (some resp.model)]
           | none => [])) := by
  refine ⟨?_, ?_, ?_, ?_⟩
  · rw [appendAgentMessage_state]
  · rw [appendAgentMessage_notified]
  · simp only [assign_verdict, runAgentJson, appendAgentMessage_state, enterPhase]
    split <;> simp [List.append_assoc]
  · simp [assign_verdict, runAgentJson, appendAgentMessage_notified, enterPhase]

-- ===========================================================================
-- web/app.py : review job lifecycle (run_review, _run_review_job)
-- ===========================================================================

/-- A Python exception as the job runner records it: type name + message
(the recorded text is the f-string "TypeName: message"). -/
structure PyExc where
  ty : String
  msg : String
deriving Repr, DecidableEq

/-- The error text `f"\x7btype(e).__name__\x7d: \x7be\x7d"`. -/
def pyExcText (e : PyExc) : String :=
  e.ty ++ ": " ++ e.msg

/-- One artifact row appended per completed repetition (report paths and
preview abstracted to the generated report payload). -/
structure ArtifactRow where
  run : Nat
  report : String
deriving Repr, DecidableEq

/-- One per-run persistence-outcome row. -/
structure PersistRow where
  run : Nat
  review_id : Option String
  error : Option String
deriving Repr, DecidableEq

/-- The in-memory `ReviewJob` status projection (timestamps and the
progress-only counters last_agent/last_phase/messages_count omitted). -/
structure ReviewJob where
  job_id : String
  status : String
  step : String
  arxiv_id_or_url : String
  persist_to_supabase : Bool
  num_reviews : Nat
  current_run : Nat
  error : Option String
  artifacts : List ArtifactRow
  persisted_reviews : List PersistRow
deriving Repr, DecidableEq

/-- Clamp of the requested repetition count in `run_review`:
`n = int(num_reviews) if int(num_reviews) > 0 else 1` then `min(max(n,1),6)`. -/
def clampNumReviews (n : Int) : Nat :=
  (min (max (if n > 0 then n else 1) 1) 6).toNat

/-- Job construction in `run_review` (POST /review): a fresh job. -/
def submitReviewJob (job_id arxiv_id_or_url : String) (persist : Bool)
    (num_reviews : Int) : ReviewJob :=
  { job_id := job_id, status := "submitted", step := "submitted",
    arxiv_id_or_url := arxiv_id_or_url, persist_to_supabase := persist,
    num_reviews := clampNumReviews num_reviews, current_run := 0,
    error := none, artifacts := [], persisted_reviews := [] }

/-- External outcomes consumed by `_run_review_job`: document ingestion,
repository availability, and the per-repetition debate/artifact and
persistence results. -/
structure RunInputs where
  ingest : Except PyExc Unit
  repoConfigured : Bool
  runOutcome : Nat → Except PyExc String
  persistOutcome : Nat → Except PyExc String

/-- The step text `f"reviewing (\x7bi\x7d/\x7bnum_reviews\x7d)"`. -/
def stepText (i n : Nat) : String :=
  "reviewing (" ++ toString i ++ "/" ++ toString n ++ ")"

/-- The step text `f"persisting (\x7bi\x7d/\x7bnum_reviews\x7d)"`. -/
def persistStepText (i n : Nat) : String :=
  "persisting (" ++ toString i ++ "/" ++ toString n ++ ")"

/-- The optional per-repetition persistence block: rows are appended, all
store exceptions are caught and recorded, nothing here aborts the loop. -/
def persistStep (inp : RunInputs) (n i : Nat) (j : ReviewJob) : ReviewJob :=
  if j.persist_to_supabase then
    let j1 := { j with step := persistStepText i n }
    if !inp.repoConfigured then
      { j1 with persisted_reviews := j1.persisted_reviews ++
          [{ run := i, review_id := none, error := some "Supabase not configured" }] }
    else
      match inp.persistOutcome i with
      | .ok rid =>
          { j1 with persisted_reviews := j1.persisted_reviews ++
              [{ run := i, review_id := some rid, error := none }] }
      | .error e =>
          { j1 with persisted_reviews := j1.persisted_reviews ++
              [{ run := i, review_id := none, error := some e.msg }] }
  else j

/-- The repetition loop of `_run_review_job` over runs 1..N: each successful
repetition appends its artifact row (then optionally persists); an exception
escapes the loop, so later repetitions never execute. -/
def reviewLoop (inp : RunInputs) (n : Nat) : List Nat → ReviewJob → ReviewJob × Option PyExc
  | [], j => (j, none)
  | i :: rest, j =>
      match inp.runOutcome i with
      | .error e => (j, some e)
      | .ok report =>
          reviewLoop inp n rest
            (persistStep inp n i
              { j with current_run := i, step := stepText i n,
                       artifacts := j.artifacts ++ [{ run := i, report := report }] })

/-- Terminal-status assignment after the repetition loop: `adjudicated` when
the loop completed, `error` (outer `except Exception`) when an exception
escaped it. -/
def finishJob (res : ReviewJob × Option PyExc) : ReviewJob × List String :=
  match res with
  | (j2, none) =>
      ({ j2 with status := "adjudicated", step := "complete" },
       ["adjudicating", "adjudicated"])
  | (j2, some e) =>
      ({ j2 with status := "error", step := "error", error := some (pyExcText e) },
       ["adjudicating", "error"])

/-- The job state after the status "adjudicating" (step "starting") and step
"ingesting" updates, i.e. just before the repetition loop. -/
def ingestedJob (job : ReviewJob) : ReviewJob :=
  { job with status := "adjudicating", step := "ingesting" }

/-- Embedding of `_run_review_job`: set status adjudicating, ingest, run the
repetitions, then set the terminal status; the second component is the
ordered list of status values written after submission. -/
def runReviewJob (job : ReviewJob) (inp : RunInputs) : ReviewJob × List String :=
  let j0 := { job with status := "adjudicating", step := "starting" }
  match inp.ingest with
  | .error e =>
      ({ j0 with status := "error", step := "error", error := some (pyExcText e) },
       ["adjudicating", "error"])
  | .ok _ =>
      finishJob (reviewLoop inp (ingestedJob job).num_reviews
        (List.range' 1 (ingestedJob job).num_reviews) (ingestedJob job))

theorem pyExcText_ne_empty (e : PyExc) : pyExcText e ≠ "" := by
  intro h
  have hlen := congrArg String.length h
  rw [pyExcText, String.length_append, String.length_append] at hlen
  have h2 : (": " : String).length = 2 := rfl
  have h0 : ("" : String).length = 0 := rfl
  omega

theorem persistStep_artifacts (inp : RunInputs) (n i : Nat) (j : ReviewJob) :
    (persistStep inp n i j).artifacts = j.artifacts ∧
    (persistStep inp n i j).status = j.status := by
  unfold persistStep
  split
  · split
    · exact ⟨rfl, rfl⟩
    · split <;> exact ⟨rfl, rfl⟩
  · exact ⟨rfl, rfl⟩

theorem reviewLoop_ok_of (inp : RunInputs) (n : Nat) (rep : Nat → String) :
    ∀ (idxs : List Nat) (j : ReviewJob),
      (∀ i ∈ idxs, inp.runOutcome i = .ok (rep i)) →
      (reviewLoop inp n idxs j).2 = none ∧
      (reviewLoop inp n idxs j).1.artifacts
        = j.artifacts ++ idxs.map (fun i => { run := i, report := rep i }) ∧
      (reviewLoop inp n idxs j).1.status = j.status := by
  intro idxs
  induction idxs with
  | nil => intro j _; exact ⟨rfl, by simp [reviewLoop], rfl⟩
  | cons i rest ih =>
      intro j hall
      have hi : inp.runOutcome i = .ok (rep i) := hall i (by simp)
      have hrest : ∀ x ∈ rest, inp.runOutcome x = .ok (rep x) :=
        fun x hx => hall x (by simp [hx])
      have hstep := persistStep_artifacts inp n i
        { j with current_run := i, step := stepText i n,
                 artifacts := j.artifacts ++ [{ run := i, report := rep i }] }
      have hrec := ih (persistStep inp n i
        { j with current_run := i, step := stepText i n,
                 artifacts := j.artifacts ++ [{ run := i, report := rep i }] }) hrest
      refine ⟨?_, ?_, ?_⟩ <;>
        simp [reviewLoop, hi, hrec.1, hrec.2.1, hrec.2.2, hstep.1, hstep.2]

theorem reviewLoop_append (inp : RunInputs) (n : Nat) (ys : List Nat) :
    ∀ (xs : List Nat) (j : ReviewJob),
      reviewLoop inp n (xs ++ ys) j =
        (match reviewLoop inp n xs j with
         | (j2, none) => reviewLoop inp n ys j2
         | (j2, some e) => (j2, some e)) := by
  intro xs
  induction xs with
  | nil => intro j; rfl
  | cons i rest ih =>
      intro j
      cases h : inp.runOutcome i with
      | error e => simp [reviewLoop, h]
      | ok report => simp [reviewLoop, h, ih]

theorem ingestedJob_num_reviews (job : ReviewJob) :
    (ingestedJob job).num_reviews = job.num_reviews := rfl

theorem ingestedJob_artifacts (job : ReviewJob) :
    (ingestedJob job).artifacts = job.artifacts := rfl

theorem finishJob_spec (res : ReviewJob × Option PyExc) :
    (finishJob res).2 = ["adjudicating", (finishJob res).1.status] ∧
    ((finishJob res).1.status = "adjudicated" ∨ (finishJob res).1.status = "error") := by
  rcases res with ⟨j2, _ | e⟩ <;> simp [finishJob]

theorem finishJob_of_none (res : ReviewJob × Option PyExc) (h : res.2 = none) :
    (finishJob res).1.status = "adjudicated" ∧
    (finishJob res).1.artifacts = res.1.artifacts := by
  rcases res with ⟨j2, _ | e2⟩ <;> simp_all [finishJob]

theorem finishJob_of_some (res : ReviewJob × Option PyExc) (e : PyExc)
    (h : res.2 = some e) :
    (finishJob res).1.status = "error" ∧
    (finishJob res).1.error = some (pyExcText e) ∧
    (finishJob res).1.artifacts = res.1.artifacts := by
  rcases res with ⟨j2, _ | e2⟩ <;> simp_all [finishJob]

/-- C4: a freshly submitted job has status submitted (empty artifacts, no
error, repetition count clamped into [1,6]); a run writes exactly the status
sequence adjudicating-then-terminal with the terminal in
adjudicated/error, never touching status afterwards; when ingestion and all
N repetitions succeed the status is adjudicated and the artifact list gains
exactly one row per repetition (length N on a fresh job's empty list); when
repetition k+1 raises, the status is error with non-empty error text and
the k completed artifact rows remain; an ingestion failure likewise ends in
error with non-empty text. -/
theorem job_lifecycle (jid url : String) (persist : Bool) (nreq : Int)
    (job : ReviewJob) (inp : RunInputs) (rc : Bool)
    (po : Nat → Except PyExc String) (rep : Nat → String) (k : Nat) (e : PyExc)
    (hk : k < job.num_reviews) :
    ((submitReviewJob jid url persist nreq).status = "submitted" ∧
     (submitReviewJob jid url persist nreq).artifacts = [] ∧
     (submitReviewJob jid url persist nreq).error = none ∧
     1 ≤ (submitReviewJob jid url persist nreq).num_reviews ∧
     (submitReviewJob jid url persist nreq).num_reviews ≤ 6) ∧
    ((runReviewJob job inp).2 = ["adjudicating", (runReviewJob job inp).1.status] ∧
     ((runReviewJob job inp).1.status = "adjudicated" ∨
      (runReviewJob job inp).1.status = "error")) ∧
    ((runReviewJob job ⟨.ok (), rc, fun i => .ok (rep i), po⟩).1.status = "adjudicated" ∧
     (runReviewJob job ⟨.ok (), rc, fun i => .ok (rep i), po⟩).1.artifacts
        = job.artifacts ++ (List.range' 1 job.num_reviews).map
            (fun i => { run := i, report := rep i }) ∧
     (runReviewJob job ⟨.ok (), rc, fun i => .ok (rep i), po⟩).1.artifacts.length
        = job.artifacts.length + job.num_reviews) ∧
    ((runReviewJob job
        ⟨.ok (), rc, fun i => if i ≤ k then .ok (rep i) else .error e, po⟩).1.status
        = "error" ∧
     (runReviewJob job
        ⟨.ok (), rc, fun i => if i ≤ k then .ok (rep i) else .error e, po⟩).1.error
        = some (pyExcText e) ∧
     pyExcText e ≠ "" ∧
     (runReviewJob job
        ⟨.ok (), rc, fun i => if i ≤ k then .ok (rep i) else .error e, po⟩).1.artifacts
        = job.artifacts ++ (List.range' 1 k).map (fun i => { run := i, report := rep i })) ∧
    ((runReviewJob job ⟨.error e, rc, fun i => .ok (rep i), po⟩).1.status = "error" ∧
     (runReviewJob job ⟨.error e, rc, fun i => .ok (rep i), po⟩).1.error
        = some (pyExcText e)) := by
  refine ⟨?_, ?_, ?_, ?_, ?_⟩
  · refine ⟨rfl, rfl, rfl, ?_, ?_⟩ <;>
      (simp only [submitReviewJob, clampNumReviews]; split <;> omega)
  · cases hing : inp.ingest with
    | error e2 => simp [runReviewJob, hing]
    | ok u =>
        simp only [runReviewJob, hing]
        exact finishJob_spec _
  · simp only [runReviewJob, ingestedJob_num_reviews]
    obtain ⟨h2, h3, _⟩ := reviewLoop_ok_of
        ⟨Except.ok (), rc, fun i => Except.ok (rep i), po⟩
        job.num_reviews rep (List.range' 1 job.num_reviews) (ingestedJob job)
        (fun i _ => rfl)
    refine ⟨(finishJob_of_none _ h2).1, ?_, ?_⟩
    · rw [(finishJob_of_none _ h2).2, h3, ingestedJob_artifacts]
    · rw [(finishJob_of_none _ h2).2, h3, ingestedJob_artifacts]
      simp
  · simp only [runReviewJob, ingestedJob_num_reviews]
    have h1 : List.range' 1 k ++ List.range' (1 + k) (job.num_reviews - k)
        = List.range' 1 job.num_reviews := by
      rw [List.range'_append_1]
      congr 1
      omega
    obtain ⟨m, hm⟩ : ∃ m, job.num_reviews = k + m + 1 :=
      ⟨job.num_reviews - k - 1, by omega⟩
    have h2 : List.range' (1 + k) (job.num_reviews - k)
        = (1 + k) :: List.range' (1 + k + 1) m := by
      rw [show job.num_reviews - k = m + 1 by omega, List.range'_succ]
    have hfirst := reviewLoop_ok_of
        ⟨Except.ok (), rc, fun i => if i ≤ k then Except.ok (rep i) else Except.error e, po⟩
        job.num_reviews rep (List.range' 1 k) (ingestedJob job)
        (fun i hi => by
          have hik : i ≤ k := by
            have := (List.mem_range'_1).1 hi
            omega
          simp [hik])
    have hloop : reviewLoop
        ⟨Except.ok (), rc, fun i => if i ≤ k then Except.ok (rep i) else Except.error e, po⟩
        job.num_reviews (List.range' 1 job.num_reviews) (ingestedJob job)
        = ((reviewLoop
              ⟨Except.ok (), rc, fun i => if i ≤ k then Except.ok (rep i) else Except.error e, po⟩
              job.num_reviews (List.range' 1 k) (ingestedJob job)).1, some e) := by
      rw [← h1, h2, reviewLoop_append]
      rw [show reviewLoop
            ⟨Except.ok (), rc, fun i => if i ≤ k then Except.ok (rep i) else Except.error e, po⟩
            job.num_reviews (List.range' 1 k) (ingestedJob job)
          = ((reviewLoop
                ⟨Except.ok (), rc, fun i => if i ≤ k then Except.ok (rep i) else Except.error e, po⟩
                job.num_reviews (List.range' 1 k) (ingestedJob job)).1, none) from by
        rw [← hfirst.1]]
      simp [reviewLoop, show ¬(1 + k ≤ k) by omega]
    obtain ⟨hst, herr, hart⟩ := finishJob_of_some
        (reviewLoop
          ⟨Except.ok (), rc, fun i => if i ≤ k then Except.ok (rep i) else Except.error e, po⟩
          job.num_reviews (List.range' 1 job.num_reviews) (ingestedJob job)) e
        (by rw [hloop])
    refine ⟨hst, herr, pyExcText_ne_empty e, ?_⟩
    rw [hart, hloop]
    simpa [ingestedJob_artifacts] using hfirst.2.1
  · constructor <;> simp [runReviewJob]

/-- Witness for C4 at a fresh 2-repetition job: two successful repetitions
end adjudicated with two artifact rows, and a failure in repetition 2 ends
in error keeping the first artifact row. -/
theorem job_lifecycle_witness :
    (submitReviewJob "j1" "arxiv:1" false 2).status = "submitted" ∧
    (runReviewJob (submitReviewJob "j1" "arxiv:1" false 2)
        ⟨.ok (), false, fun i => .ok ("r" ++ toString i), fun _ => .ok "id"⟩).1.status
      = "adjudicated" ∧
    (runReviewJob (submitReviewJob "j1" "arxiv:1" false 2)
        ⟨.ok (), false, fun i => .ok ("r" ++ toString i), fun _ => .ok "id"⟩).1.artifacts.length
      = 2 ∧
    (runReviewJob (submitReviewJob "j1" "arxiv:1" false 2)
        ⟨.ok (), false,
         fun i => if i ≤ 1 then .ok ("r" ++ toString i) else .error ⟨"ValueError", "boom"⟩,
         fun _ => .ok "id"⟩).1.status = "error" ∧
    (runReviewJob (submitReviewJob "j1" "arxiv:1" false 2)
        ⟨.ok (), false,
         fun i => if i ≤ 1 then .ok ("r" ++ toString i) else .error ⟨"ValueError", "boom"⟩,
         fun _ => .ok "id"⟩).1.artifacts
      = [{ run := 1, report := "r1" }] := by
  have h := job_lifecycle "j1" "arxiv:1" false 2
      (submitReviewJob "j1" "arxiv:1" false 2)
      ⟨.ok (), false, fun i => .ok ("r" ++ toString i), fun _ => .ok "id"⟩
      false (fun _ => .ok "id") (fun i => "r" ++ toString i) 1
      ⟨"ValueError", "boom"⟩ (by decide)
  refine ⟨h.1.1, h.2.2.1.1, ?_, h.2.2.2.1.1, ?_⟩
  · rw [h.2.2.1.2.2]
    decide
  · rw [h.2.2.2.1.2.2.2]
    rfl
